import Mathlib

/-!
Verification of the taipei_marathon_server request-relay (src/server.js).

The server exposes three JSON endpoints over a Redis-style key-value store
with per-key TTL:
- `POST /api/chat/start`   (dispatcher, lines 49-125)
- `POST /api/chat/callback` (callback receiver, lines 127-159)
- `GET /api/chat/result/:requestID` (poll endpoint, lines 162-202)

We embed the store as an association list from keys (strings) to stored
records, and each Express handler as a pure function from the request data,
the current store, and an oracle for the outcome of each fallible effect
(Redis `set`/`get`/`del` succeeding or throwing, and the `fetch` to the n8n
webhook throwing or returning a given HTTP status) to the HTTP response, the
resulting store, and a trace of the side effects it attempted, in order.
-/

namespace TMServer

/-- TTL in seconds of a cached record, `REDIS_TTL_SECONDS` at server.js line 12. -/
def REDIS_TTL_SECONDS : Nat := 3600

/-- The `status` field of a stored record: `'processing'` or `'completed'`. -/
inductive RecStatus where
  | processing
  | completed
deriving DecidableEq, Repr

/-- The `data` payload of a completed record, built at server.js lines 132-135
as `{clientId, text}`; either field may be absent (`undefined`) in the JSON body. -/
structure ResultData where
  clientId : Option String
  text : Option String
deriving DecidableEq, Repr

/-- A record stored under a requestID. The dispatcher writes
`{status: 'processing', timestamp}` (line 64) and the callback writes
`{status: 'completed', data, timestamp}` (lines 139-143); both pass
`{ EX: REDIS_TTL_SECONDS }`, recorded here in the `ttl` field. -/
structure StoredRecord where
  status : RecStatus
  data : Option ResultData
  timestamp : Nat
  ttl : Nat
deriving DecidableEq, Repr

/-- The key-value store, as an association list keyed by requestID. -/
abbrev Store := List (String × StoredRecord)

/-- Redis `GET key`: the first binding of the key, if any. -/
def Store.get (s : Store) (k : String) : Option StoredRecord :=
  match s with
  | [] => none
  | (k1, v) :: rest => if k1 = k then some v else Store.get rest k

/-- Redis `DEL key`: remove every binding of the key. -/
def Store.del (s : Store) (k : String) : Store :=
  match s with
  | [] => []
  | (k1, v) :: rest =>
    if k1 = k then Store.del rest k else (k1, v) :: Store.del rest k

/-- Redis `SET key value EX ttl`: bind the key to the value, replacing any
previous binding. -/
def Store.set (s : Store) (k : String) (v : StoredRecord) : Store :=
  (k, v) :: Store.del s k

theorem Store.get_del_self (s : Store) (k : String) :
    Store.get (Store.del s k) k = none := by
  induction s with
  | nil => rfl
  | cons p rest ih =>
    obtain ⟨k1, v⟩ := p
    by_cases h : k1 = k
    · simpa [Store.del, h] using ih
    · simpa [Store.del, Store.get, h] using ih

theorem Store.get_del_ne (s : Store) (k k2 : String) (h : k2 ≠ k) :
    Store.get (Store.del s k) k2 = Store.get s k2 := by
  induction s with
  | nil => rfl
  | cons p rest ih =>
    obtain ⟨k1, v⟩ := p
    by_cases hk : k1 = k
    · subst hk
      simp [Store.del, Store.get, Ne.symm h, ih]
    · by_cases hk2 : k1 = k2
      · subst hk2
        simp [Store.del, Store.get, hk]
      · simp [Store.del, Store.get, hk, hk2, ih]

theorem Store.get_set_self (s : Store) (k : String) (v : StoredRecord) :
    Store.get (Store.set s k v) k = some v := by
  simp [Store.set, Store.get]

theorem Store.get_set_ne (s : Store) (k k2 : String) (v : StoredRecord) (h : k2 ≠ k) :
    Store.get (Store.set s k v) k2 = Store.get s k2 := by
  simp [Store.set, Store.get, Ne.symm h, Store.get_del_ne s k k2 h]

/-- One attempted side effect of a handler, in program order: a Redis `set`
of a key to a record, a Redis `del` of a key, or the `fetch` POST to the n8n
webhook. The Bool records whether the Redis operation succeeded (`true`) or
threw (`false`). -/
inductive Ev where
  | setEv (k : String) (v : StoredRecord) (ok : Bool)
  | delEv (k : String) (ok : Bool)
  | webhookEv
deriving DecidableEq, Repr

/-! ## Dispatcher: `POST /api/chat/start` (server.js lines 49-125) -/

/-- Outcomes of the fallible effects inside the start handler: whether the
initial Redis `set` succeeds, the outcome of `fetch` to the webhook (`none`
means the fetch threw, `some st` means it returned HTTP status `st`), and
whether a Redis `del` succeeds. -/
structure StartFx where
  setOk : Bool
  fetchOutcome : Option Nat
  delOk : Bool
deriving DecidableEq, Repr

/-- The HTTP response of the start handler: its status code and, for the 202
success body of lines 102-106, the `requestID` field it carries. -/
structure StartResp where
  status : Nat
  requestID : Option String
deriving DecidableEq, Repr

/-- Result of running the start handler: the response (`none` when the handler
crashed with an unhandled rejection and sent nothing), the store afterwards,
and the ordered trace of attempted effects. -/
structure StartOut where
  resp : Option StartResp
  store : Store
  trace : List Ev
deriving DecidableEq, Repr

/-- Whether `process.env.N8N_WEBHOOK_URL` is missing: the check `if (!url)` at
line 81 treats both an unset variable and the empty string as absent. -/
def urlMissing : Option String → Bool
  | none => true
  | some u => u == ""

/-- The start handler, server.js lines 49-125. `rid` is the requestID
generated at line 51 and `now` the value of `Date.now()` at line 64. In order:
write `{status: 'processing', timestamp}` under `rid` with TTL (line 67,
returning 502 if the write throws, lines 69-75); return 500 if the webhook URL
is missing (line 81); `fetch` the webhook (line 87); on HTTP 200/202 return
202 with the requestID (lines 100-106); on any other status delete the record
and return 502 (lines 107-114); if the fetch threw, the catch block deletes
the record and returns 502 (lines 116-124). A `del` that itself throws inside
the try block lands in the same catch, whose own `del` throws again, so the
rejected promise escapes the handler and no response is sent. -/
def startHandler (url : Option String) (fx : StartFx) (now : Nat)
    (rid : String) (s : Store) : StartOut :=
  let initialData : StoredRecord :=
    { status := .processing, data := none, timestamp := now, ttl := REDIS_TTL_SECONDS }
  if fx.setOk then
    let s1 := Store.set s rid initialData
    let tr1 : List Ev := [.setEv rid initialData true]
    if urlMissing url then
      { resp := some { status := 500, requestID := none }, store := s1, trace := tr1 }
    else
      match fx.fetchOutcome with
      | some st =>
        if st = 202 ∨ st = 200 then
          { resp := some { status := 202, requestID := some rid },
            store := s1, trace := tr1 ++ [.webhookEv] }
        else if fx.delOk then
          { resp := some { status := 502, requestID := none },
            store := Store.del s1 rid,
            trace := tr1 ++ [.webhookEv, .delEv rid true] }
        else
          { resp := none, store := s1,
            trace := tr1 ++ [.webhookEv, .delEv rid false, .delEv rid false] }
      | none =>
        if fx.delOk then
          { resp := some { status := 502, requestID := none },
            store := Store.del s1 rid,
            trace := tr1 ++ [.webhookEv, .delEv rid true] }
        else
          { resp := none, store := s1,
            trace := tr1 ++ [.webhookEv, .delEv rid false] }
  else
    { resp := some { status := 502, requestID := none }, store := s,
      trace := [.setEv rid initialData false] }

/-! ## Callback receiver: `POST /api/chat/callback` (server.js lines 127-159) -/

/-- The response of the callback handler paired with the store afterwards. -/
structure CallbackOut where
  status : Nat
  store : Store
deriving DecidableEq, Repr

/-- The callback handler, server.js lines 127-159. The body fields
`requestID`, `clientId`, `text` may each be absent. The guard at line 137 is
`if (requestID && finalResult)`: `finalResult` is the object literal built at
lines 132-135 and is always truthy, so only the truthiness of `requestID`
(present and non-empty) is actually checked. On a truthy requestID the handler
writes `{status: 'completed', data: {clientId, text}, timestamp}` with a fresh
TTL (line 147) and returns 200, or 500 if the write throws (lines 152-155);
otherwise it returns 400 (line 158) without touching the store. -/
def callbackHandler (setOk : Bool) (now : Nat)
    (requestID clientId text : Option String) (s : Store) : CallbackOut :=
  match requestID with
  | none => { status := 400, store := s }
  | some rid =>
    if rid = "" then { status := 400, store := s }
    else
      let completedData : StoredRecord :=
        { status := .completed,
          data := some { clientId := clientId, text := text },
          timestamp := now, ttl := REDIS_TTL_SECONDS }
      if setOk then { status := 200, store := Store.set s rid completedData }
      else { status := 500, store := s }

/-! ## Poll endpoint: `GET /api/chat/result/:requestID` (server.js lines 162-202) -/

/-- The JSON body of a poll response: the `result.data` field of a completed
record (line 194), the processing message (lines 198-201), the 404 message
(line 181), or the 500 internal-error message (line 175). -/
inductive PollBody where
  | resultData (d : Option ResultData)
  | processingMsg
  | notFoundMsg
  | errorMsg
deriving DecidableEq, Repr

/-- Outcomes of the fallible effects inside the poll handler: whether the
Redis `get` succeeds and whether the `del` of a completed record succeeds. -/
structure PollFx where
  getOk : Bool
  delOk : Bool
deriving DecidableEq, Repr

/-- Result of running the poll handler. -/
structure PollOut where
  status : Nat
  body : PollBody
  store : Store
deriving DecidableEq, Repr

/-- The poll handler, server.js lines 162-202. Read the record (line 168,
returning 500 if the read throws, lines 173-176); on a miss return 404
(lines 179-182); if the record is completed, delete it — a failing delete
is only logged, lines 190-193 — and return 200 with `result.data`
(lines 184-195); otherwise return 200 with the processing message
(lines 198-201). -/
def pollHandler (fx : PollFx) (rid : String) (s : Store) : PollOut :=
  if fx.getOk then
    match Store.get s rid with
    | none => { status := 404, body := .notFoundMsg, store := s }
    | some r =>
      if r.status = .completed then
        { status := 200, body := .resultData r.data,
          store := if fx.delOk then Store.del s rid else s }
      else
        { status := 200, body := .processingMsg, store := s }
  else
    { status := 500, body := .errorMsg, store := s }

/-! ## Concrete inputs used by witness instantiations -/

/-- A sample completed record, as the callback receiver would store it. -/
def sampleCompleted : StoredRecord :=
  { status := .completed,
    data := some { clientId := some "c1", text := some "hello" },
    timestamp := 5, ttl := REDIS_TTL_SECONDS }

/-- A sample store holding one completed record under the key "a". -/
def sampleStore : Store := [("a", sampleCompleted)]

/-! ## Claims -/

/-- C1: Single delivery — when the stored record under a requestID has status
'completed', a poll of `GET /api/chat/result/:requestID` returns 200 with the
record's data field and deletes the record, and an immediately subsequent poll
for the same requestID returns 404. -/
theorem poll_single_delivery (s : Store) (rid : String) (r : StoredRecord)
    (hget : Store.get s rid = some r) (hc : r.status = RecStatus.completed) :
    pollHandler ⟨true, true⟩ rid s =
      { status := 200, body := .resultData r.data, store := Store.del s rid } ∧
    (pollHandler ⟨true, true⟩ rid (Store.del s rid)).status = 404 := by
  constructor
  · simp [pollHandler, hget, hc]
  · simp [pollHandler, Store.get_del_self]

/-- Witness for C1 at a concrete one-record store. -/
theorem poll_single_delivery_witness :
    pollHandler ⟨true, true⟩ "a" sampleStore =
      { status := 200, body := .resultData sampleCompleted.data,
        store := Store.del sampleStore "a" } ∧
    (pollHandler ⟨true, true⟩ "a" (Store.del sampleStore "a")).status = 404 :=
  poll_single_delivery sampleStore "a" sampleCompleted (by decide) (by decide)

/-- C2 counterexample: a callback whose body carries a requestID but neither
clientId nor text is answered 200 and a completed record is written — not 400
with nothing written, as the claim would have it. -/
theorem callback_missing_fields_cex :
    (callbackHandler true 7 (some "req1") none none []).status = 200 ∧
    Store.get (callbackHandler true 7 (some "req1") none none []).store "req1" =
      some { status := .completed,
             data := some { clientId := none, text := none },
             timestamp := 7, ttl := REDIS_TTL_SECONDS } := by
  decide

/-- C2 (amended): the callback handler validates only the requestID field — it
returns 400 exactly when requestID is absent or the empty string, and then
writes nothing; whenever requestID is present and non-empty and the store
write succeeds it returns 200, regardless of whether clientId or text are
present. -/
theorem callback_validates_only_requestID (setOk : Bool) (now : Nat)
    (requestID clientId text : Option String) (s : Store) :
    ((callbackHandler setOk now requestID clientId text s).status = 400 ↔
      requestID = none ∨ requestID = some "") ∧
    ((callbackHandler setOk now requestID clientId text s).status = 400 →
      (callbackHandler setOk now requestID clientId text s).store = s) ∧
    (∀ rid, requestID = some rid → rid ≠ "" → setOk = true →
      (callbackHandler setOk now requestID clientId text s).status = 200) := by
  match requestID with
  | none => simp [callbackHandler]
  | some rid =>
    by_cases h : rid = ""
    · subst h
      simp [callbackHandler]
    · cases setOk <;> simp [callbackHandler, h]

/-- Witness for C2 (amended) at a concrete callback request. -/
theorem callback_validates_only_requestID_witness :
    (((callbackHandler true 7 (some "req1") none none []).status = 400 ↔
      (some "req1" : Option String) = none ∨
        (some "req1" : Option String) = some "") ∧
    ((callbackHandler true 7 (some "req1") none none []).status = 400 →
      (callbackHandler true 7 (some "req1") none none []).store = []) ∧
    (∀ rid, (some "req1" : Option String) = some rid → rid ≠ "" →
      true = true →
      (callbackHandler true 7 (some "req1") none none []).status = 200)) :=
  callback_validates_only_requestID true 7 (some "req1") none none []

/-- C3: atomicity of failed dispatch — when the initial write succeeded, the
webhook URL is configured, and the fetch either throws or returns a status
other than 200 and 202 (the cleanup delete itself succeeding), the start
handler responds 502 and the resulting store holds no record for the
generated requestID. -/
theorem start_failed_dispatch_atomic (u : String) (fx : StartFx) (now : Nat)
    (rid : String) (s : Store)
    (hu : u ≠ "") (hset : fx.setOk = true) (hdel : fx.delOk = true)
    (hfail : fx.fetchOutcome = none ∨
      ∃ st, fx.fetchOutcome = some st ∧ st ≠ 200 ∧ st ≠ 202) :
    (startHandler (some u) fx now rid s).resp =
      some { status := 502, requestID := none } ∧
    Store.get (startHandler (some u) fx now rid s).store rid = none := by
  have hmiss : urlMissing (some u) = false := by
    simpa [urlMissing] using hu
  rcases hfail with hf | ⟨st, hf, h200, h202⟩
  · simp [startHandler, hset, hmiss, hf, hdel, Store.get_del_self]
  · simp [startHandler, hset, hmiss, hf, hdel, h200, h202, Store.get_del_self]

/-- Witness for C3 with the fetch throwing. -/
theorem start_failed_dispatch_atomic_witness :
    (startHandler (some "http://n8n") ⟨true, none, true⟩ 5 "a" []).resp =
      some { status := 502, requestID := none } ∧
    Store.get (startHandler (some "http://n8n") ⟨true, none, true⟩ 5 "a" []).store
      "a" = none :=
  start_failed_dispatch_atomic "http://n8n" ⟨true, none, true⟩ 5 "a" []
    (by decide) rfl rfl (Or.inl rfl)

/-- C4: successful dispatch — with the store write succeeding and the webhook
returning HTTP 200 or 202, the start handler writes the processing record with
a 1-hour TTL under the generated requestID strictly before contacting the
webhook (the trace is exactly the successful set followed by the webhook
call), responds 202 carrying that requestID, and an immediate poll for that
requestID returns 200 with the processing body, leaving the store unchanged. -/
theorem start_success_dispatch (u : String) (fx : StartFx) (now : Nat)
    (rid : String) (s : Store) (st : Nat)
    (hu : u ≠ "") (hset : fx.setOk = true)
    (hf : fx.fetchOutcome = some st) (hst : st = 200 ∨ st = 202) :
    (startHandler (some u) fx now rid s).resp =
      some { status := 202, requestID := some rid } ∧
    Store.get (startHandler (some u) fx now rid s).store rid =
      some { status := .processing, data := none, timestamp := now,
             ttl := REDIS_TTL_SECONDS } ∧
    (startHandler (some u) fx now rid s).trace =
      [.setEv rid { status := .processing, data := none, timestamp := now,
                    ttl := REDIS_TTL_SECONDS } true, .webhookEv] ∧
    pollHandler ⟨true, true⟩ rid (startHandler (some u) fx now rid s).store =
      { status := 200, body := .processingMsg,
        store := (startHandler (some u) fx now rid s).store } := by
  have hmiss : urlMissing (some u) = false := by
    simpa [urlMissing] using hu
  rcases hst with hst | hst <;>
    simp [startHandler, hset, hmiss, hf, hst, pollHandler, Store.get_set_self]

/-- Witness for C4 with the webhook answering 200. -/
theorem start_success_dispatch_witness :
    (startHandler (some "http://n8n") ⟨true, some 200, true⟩ 5 "a" []).resp =
      some { status := 202, requestID := some "a" } ∧
    Store.get (startHandler (some "http://n8n") ⟨true, some 200, true⟩ 5 "a" []).store
      "a" =
      some { status := .processing, data := none, timestamp := 5,
             ttl := REDIS_TTL_SECONDS } ∧
    (startHandler (some "http://n8n") ⟨true, some 200, true⟩ 5 "a" []).trace =
      [.setEv "a" { status := .processing, data := none, timestamp := 5,
                    ttl := REDIS_TTL_SECONDS } true, .webhookEv] ∧
    pollHandler ⟨true, true⟩ "a"
        (startHandler (some "http://n8n") ⟨true, some 200, true⟩ 5 "a" []).store =
      { status := 200, body := .processingMsg,
        store := (startHandler (some "http://n8n") ⟨true, some 200, true⟩
          5 "a" []).store } :=
  start_success_dispatch "http://n8n" ⟨true, some 200, true⟩ 5 "a" [] 200
    (by decide) rfl rfl (Or.inl rfl)

/-- C5: the callback, given a non-empty requestID and a succeeding store
write, stores the completed record carrying {clientId, text} and a fresh
1-hour TTL under that requestID — overwriting any existing record, and also
creating one for requestIDs never dispatched — and returns 200. -/
theorem callback_overwrites_unconditionally (now : Nat) (rid : String)
    (clientId text : Option String) (s : Store) (h : rid ≠ "") :
    (callbackHandler true now (some rid) clientId text s).status = 200 ∧
    Store.get (callbackHandler true now (some rid) clientId text s).store rid =
      some { status := .completed,
             data := some { clientId := clientId, text := text },
             timestamp := now, ttl := REDIS_TTL_SECONDS } := by
  simp [callbackHandler, h, Store.get_set_self]

/-- Witness for C5 on an empty store (a never-dispatched requestID). -/
theorem callback_overwrites_unconditionally_witness :
    (callbackHandler true 9 (some "b") (some "c2") (some "hi") []).status = 200 ∧
    Store.get (callbackHandler true 9 (some "b") (some "c2") (some "hi") []).store
      "b" =
      some { status := .completed,
             data := some { clientId := some "c2", text := some "hi" },
             timestamp := 9, ttl := REDIS_TTL_SECONDS } :=
  callback_overwrites_unconditionally 9 "b" (some "c2") (some "hi") [] (by decide)

/-- C6: when the initial store write throws, the start handler immediately
responds 502, leaves the store unchanged, and its effect trace is exactly the
single failed write: the webhook is never contacted and the write is not
retried. -/
theorem start_set_failure_stops (url : Option String) (fx : StartFx)
    (now : Nat) (rid : String) (s : Store) (hset : fx.setOk = false) :
    (startHandler url fx now rid s).resp =
      some { status := 502, requestID := none } ∧
    (startHandler url fx now rid s).store = s ∧
    (startHandler url fx now rid s).trace =
      [.setEv rid { status := .processing, data := none, timestamp := now,
                    ttl := REDIS_TTL_SECONDS } false] ∧
    Ev.webhookEv ∉ (startHandler url fx now rid s).trace := by
  simp [startHandler, hset]

/-- Witness for C6 with a configured URL and a failing write. -/
theorem start_set_failure_stops_witness :
    (startHandler (some "http://n8n") ⟨false, some 200, true⟩ 3 "w" []).resp =
      some { status := 502, requestID := none } ∧
    (startHandler (some "http://n8n") ⟨false, some 200, true⟩ 3 "w" []).store = [] ∧
    (startHandler (some "http://n8n") ⟨false, some 200, true⟩ 3 "w" []).trace =
      [.setEv "w" { status := .processing, data := none, timestamp := 3,
                    ttl := REDIS_TTL_SECONDS } false] ∧
    Ev.webhookEv ∉
      (startHandler (some "http://n8n") ⟨false, some 200, true⟩ 3 "w" []).trace :=
  start_set_failure_stops (some "http://n8n") ⟨false, some 200, true⟩ 3 "w" [] rfl

/-- C7: polling a requestID that has no record in the store returns 404 with
the not-found message and leaves the store unchanged, for any outcome of the
delete oracle (no delete is attempted). -/
theorem poll_missing_not_found (fx : PollFx) (rid : String) (s : Store)
    (hget : fx.getOk = true) (h : Store.get s rid = none) :
    pollHandler fx rid s = { status := 404, body := .notFoundMsg, store := s } := by
  simp [pollHandler, hget, h]

/-- Witness for C7 on an empty store. -/
theorem poll_missing_not_found_witness :
    pollHandler ⟨true, true⟩ "z" [] =
      { status := 404, body := .notFoundMsg, store := [] } :=
  poll_missing_not_found ⟨true, true⟩ "z" [] rfl rfl

/-- C8: when N8N_WEBHOOK_URL is absent, the start handler (having already
written the processing record) responds 500 and does not delete the record:
the trace is just the successful write, the record remains stored with its
1-hour TTL, and a poll for the requestID returns the processing status. -/
theorem start_missing_url_leaves_record (fx : StartFx) (now : Nat)
    (rid : String) (s : Store) (hset : fx.setOk = true) :
    (startHandler none fx now rid s).resp =
      some { status := 500, requestID := none } ∧
    Store.get (startHandler none fx now rid s).store rid =
      some { status := .processing, data := none, timestamp := now,
             ttl := REDIS_TTL_SECONDS } ∧
    (startHandler none fx now rid s).trace =
      [.setEv rid { status := .processing, data := none, timestamp := now,
                    ttl := REDIS_TTL_SECONDS } true] ∧
    pollHandler ⟨true, true⟩ rid (startHandler none fx now rid s).store =
      { status := 200, body := .processingMsg,
        store := (startHandler none fx now rid s).store } := by
  simp [startHandler, urlMissing, hset, pollHandler, Store.get_set_self]

/-- Witness for C8 at a concrete request. -/
theorem start_missing_url_leaves_record_witness :
    (startHandler none ⟨true, some 200, true⟩ 4 "m" []).resp =
      some { status := 500, requestID := none } ∧
    Store.get (startHandler none ⟨true, some 200, true⟩ 4 "m" []).store "m" =
      some { status := .processing, data := none, timestamp := 4,
             ttl := REDIS_TTL_SECONDS } ∧
    (startHandler none ⟨true, some 200, true⟩ 4 "m" []).trace =
      [.setEv "m" { status := .processing, data := none, timestamp := 4,
                    ttl := REDIS_TTL_SECONDS } true] ∧
    pollHandler ⟨true, true⟩ "m"
        (startHandler none ⟨true, some 200, true⟩ 4 "m" []).store =
      { status := 200, body := .processingMsg,
        store := (startHandler none ⟨true, some 200, true⟩ 4 "m" []).store } :=
  start_missing_url_leaves_record ⟨true, some 200, true⟩ 4 "m" [] rfl

/-- C9: when the poll endpoint reads a completed record but the store deletion
throws, the error is swallowed: the handler still responds 200 with the
record's data and the store is unchanged, so a later poll delivers the same
data again. -/
theorem poll_delete_failure_redelivers (rid : String) (s : Store)
    (r : StoredRecord)
    (hget : Store.get s rid = some r) (hc : r.status = RecStatus.completed) :
    pollHandler ⟨true, false⟩ rid s =
      { status := 200, body := .resultData r.data, store := s } ∧
    (pollHandler ⟨true, true⟩ rid s).status = 200 ∧
    (pollHandler ⟨true, true⟩ rid s).body = .resultData r.data := by
  simp [pollHandler, hget, hc]

/-- Witness for C9 at a concrete one-record store. -/
theorem poll_delete_failure_redelivers_witness :
    pollHandler ⟨true, false⟩ "a" sampleStore =
      { status := 200, body := .resultData sampleCompleted.data,
        store := sampleStore } ∧
    (pollHandler ⟨true, true⟩ "a" sampleStore).status = 200 ∧
    (pollHandler ⟨true, true⟩ "a" sampleStore).body =
      .resultData sampleCompleted.data :=
  poll_delete_failure_redelivers "a" sampleStore sampleCompleted
    (by decide) (by decide)

/-- C10: frame property of polling — the poll handler either leaves the store
exactly as it was, or (only when the queried key holds a completed record)
removes that single key; and every key other than the queried one always maps
to the same record before and after. -/
theorem poll_frame (fx : PollFx) (rid : String) (s : Store) :
    ((pollHandler fx rid s).store = s ∨
      ∃ r, Store.get s rid = some r ∧ r.status = RecStatus.completed ∧
        (pollHandler fx rid s).store = Store.del s rid) ∧
    (∀ k, Store.get (pollHandler fx rid s).store k = Store.get s k ∨ k = rid) := by
  constructor
  · cases hg : fx.getOk
    · simp [pollHandler, hg]
    · cases hget : Store.get s rid with
      | none => simp [pollHandler, hg, hget]
      | some r =>
        by_cases hc : r.status = RecStatus.completed
        · cases hd : fx.delOk
          · left
            simp [pollHandler, hg, hget, hc, hd]
          · right
            exact ⟨r, rfl, hc, by simp [pollHandler, hg, hget, hc, hd]⟩
        · left
          simp [pollHandler, hg, hget, hc]
  · intro k
    by_cases hk : k = rid
    · exact Or.inr hk
    · left
      cases hg : fx.getOk
      · simp [pollHandler, hg]
      · cases hget : Store.get s rid with
        | none => simp [pollHandler, hg, hget]
        | some r =>
          by_cases hc : r.status = RecStatus.completed
          · cases hd : fx.delOk
            · simp [pollHandler, hg, hget, hc, hd]
            · simp [pollHandler, hg, hget, hc, hd,
                Store.get_del_ne s rid k hk]
          · simp [pollHandler, hg, hget, hc]

end TMServer
